import Mathlib

/-!
Shallow embedding of the UMKM tracking application: the relational schema
(tables, row-level-security policies, CHECK constraints, column defaults,
updated-at trigger) from the migration file, and the client-side operations
(call insertion, call acknowledgement, availability toggling, subscription
gating, haversine distance) from the dashboard components.
-/

namespace UMKM

abbrev UserId := Nat
abbrev VendorId := Nat
abbrev CallId := Nat
abbrev SubId := Nat
abbrev Timestamp := Nat
abbrev CalDate := Nat

/-- Row of the `profiles` table. -/
structure Profile where
  id : UserId
  full_name : String
  phone : Option String
  user_type : String
  created_at : Timestamp
  updated_at : Timestamp
deriving DecidableEq

/-- CHECK (user_type IN ('vendor', 'customer')). -/
def profileUserTypeOk (t : String) : Bool :=
  t == "vendor" || t == "customer"

/-- Row of the `vendors` table; latitude/longitude/last_location_update are nullable. -/
structure Vendor where
  id : VendorId
  user_id : UserId
  business_name : String
  business_type : String
  description : String
  is_active : Bool
  current_latitude : Option ℚ
  current_longitude : Option ℚ
  last_location_update : Option Timestamp
  created_at : Timestamp
  updated_at : Timestamp
deriving DecidableEq

/-- Row of the `subscriptions` table. -/
structure Subscription where
  id : SubId
  vendor_id : VendorId
  start_date : CalDate
  end_date : CalDate
  amount : Int
  status : String
  payment_date : Option Timestamp
  created_at : Timestamp
deriving DecidableEq

/-- CHECK (status IN ('active', 'expired', 'pending')). -/
def subscriptionStatusOk (s : String) : Bool :=
  s == "active" || s == "expired" || s == "pending"

/-- Row of the `customer_calls` table. -/
structure Call where
  id : CallId
  customer_id : UserId
  vendor_id : VendorId
  customer_latitude : ℚ
  customer_longitude : ℚ
  status : String
  created_at : Timestamp
  acknowledged_at : Option Timestamp
  completed_at : Option Timestamp
deriving DecidableEq

/-- CHECK (status IN ('pending', 'acknowledged', 'completed')). -/
def callStatusOk (s : String) : Bool :=
  s == "pending" || s == "acknowledged" || s == "completed"

/-- The database: the four tables of the migration. -/
structure Database where
  profiles : List Profile
  vendors : List Vendor
  subscriptions : List Subscription
  customer_calls : List Call
deriving DecidableEq

/-- Subquery `vendor_id IN (SELECT id FROM vendors WHERE user_id = auth.uid())`
used by the subscriptions and customer_calls policies. -/
def ownsVendor (db : Database) (uid : UserId) (vid : VendorId) : Bool :=
  db.vendors.any (fun v => v.id == vid && v.user_id == uid)

/-- Policy "Users can view all profiles": USING (true). -/
def profilesSelectPolicy (_uid : UserId) (_row : Profile) : Bool := true

/-- Policy "Users can update own profile": USING (auth.uid() = id). -/
def profilesUpdateUsing (uid : UserId) (row : Profile) : Bool := uid == row.id

/-- Policy "Users can update own profile": WITH CHECK (auth.uid() = id). -/
def profilesUpdateCheck (uid : UserId) (row : Profile) : Bool := uid == row.id

/-- Policy "Users can insert own profile": WITH CHECK (auth.uid() = id). -/
def profilesInsertCheck (uid : UserId) (row : Profile) : Bool := uid == row.id

/-- Policy "Anyone can view active vendors": USING (true). -/
def vendorsSelectPolicy (_uid : UserId) (_row : Vendor) : Bool := true

/-- Policy "Vendors can update own data": USING (user_id = auth.uid()). -/
def vendorsUpdateUsing (uid : UserId) (row : Vendor) : Bool := row.user_id == uid

/-- Policy "Vendors can update own data": WITH CHECK (user_id = auth.uid()). -/
def vendorsUpdateCheck (uid : UserId) (row : Vendor) : Bool := row.user_id == uid

/-- Policy "Vendors can insert own data": WITH CHECK (user_id = auth.uid()). -/
def vendorsInsertCheck (uid : UserId) (row : Vendor) : Bool := row.user_id == uid

/-- Policy "Customers can view own calls": USING (customer_id = auth.uid()). -/
def callsSelectCustomer (uid : UserId) (row : Call) : Bool := row.customer_id == uid

/-- Policy "Vendors can view calls to them": USING (vendor_id IN owned vendors). -/
def callsSelectVendor (db : Database) (uid : UserId) (row : Call) : Bool :=
  ownsVendor db uid row.vendor_id

/-- Policy "Customers can create calls": WITH CHECK (customer_id = auth.uid()). -/
def callsInsertCheck (uid : UserId) (row : Call) : Bool := row.customer_id == uid

/-- Policy "Vendors can update calls to them": USING (vendor_id IN owned vendors). -/
def callsUpdateUsing (db : Database) (uid : UserId) (row : Call) : Bool :=
  ownsVendor db uid row.vendor_id

/-- Policy "Vendors can update calls to them": WITH CHECK (vendor_id IN owned vendors). -/
def callsUpdateCheck (db : Database) (uid : UserId) (row : Call) : Bool :=
  ownsVendor db uid row.vendor_id

/-- Authorization condition for replacing a stored call row by a new version:
the update policy's USING on the old row and WITH CHECK on the new row. -/
def callUpdateAllowed (db : Database) (uid : UserId) (oldRow newRow : Call) : Bool :=
  callsUpdateUsing db uid oldRow && callsUpdateCheck db uid newRow

/-- Authorization condition for an UPDATE that rewrites only the status column. -/
def callStatusUpdateAllowed (db : Database) (uid : UserId) (c : Call) (s : String) : Bool :=
  callUpdateAllowed db uid c { c with status := s }

/-- A status-only UPDATE statement on customer_calls targeting one row id:
each stored row is replaced when the policy and the CHECK constraint accept it.  -/
def updateCallStatusDb (db : Database) (uid : UserId) (callId : CallId) (s : String) :
    Database :=
  { db with customer_calls := db.customer_calls.map (fun c =>
      if c.id == callId && callStatusUpdateAllowed db uid c s && callStatusOk s
      then { c with status := s } else c) }

/-- An UPDATE on profiles targeting one row id with row transform f; the
updated-at trigger overwrites updated_at with the transaction time. -/
def updateProfilesDb (db : Database) (uid : UserId) (targetId : UserId)
    (f : Profile → Profile) (now : Timestamp) : Database :=
  { db with profiles := db.profiles.map (fun p =>
      if p.id == targetId && profilesUpdateUsing uid p && profilesUpdateCheck uid (f p)
          && profileUserTypeOk (f p).user_type
      then { f p with updated_at := now } else p) }

/-- Ranking of the three call statuses along the lifecycle
pending → acknowledged → completed. -/
def statusRank (s : String) : Nat :=
  if s == "pending" then 0 else if s == "acknowledged" then 1 else 2

/-- Row transform performed by acknowledgeCall:
update \x7b status: 'acknowledged', acknowledged_at: new Date().toISOString() \x7d. -/
def ackTransform (now : Timestamp) (c : Call) : Call :=
  { c with status := "acknowledged", acknowledged_at := some now }

/-- Per-row effect of acknowledgeCall's UPDATE ... .eq('id', callId): a row
matching the id is rewritten when the policy and CHECK accept the new row. -/
def ackRow (db : Database) (uid : UserId) (callId : CallId) (now : Timestamp)
    (c : Call) : Call :=
  if c.id == callId && callUpdateAllowed db uid c (ackTransform now c)
      && callStatusOk (ackTransform now c).status
  then ackTransform now c else c

/-- The database effect of acknowledgeCall's UPDATE. -/
def ackCallDb (db : Database) (uid : UserId) (callId : CallId) (now : Timestamp) :
    Database :=
  { db with customer_calls := db.customer_calls.map (ackRow db uid callId now) }

/-- The stored row produced by callVendor's INSERT into customer_calls:
customer_id, vendor_id, coordinates, status 'pending'; created_at defaults to now();
acknowledged_at and completed_at start NULL. -/
def callVendorRow (uid : UserId) (vid : VendorId) (lat lng : ℚ)
    (newId : CallId) (now : Timestamp) : Call :=
  { id := newId, customer_id := uid, vendor_id := vid,
    customer_latitude := lat, customer_longitude := lng,
    status := "pending", created_at := now,
    acknowledged_at := none, completed_at := none }

/-- The database effect of callVendor's INSERT: rejected when the generated id
collides with an existing primary key, when the insert policy fails, or when the
CHECK constraint fails; otherwise the new row is appended. -/
def insertCallDb (db : Database) (uid : UserId) (row : Call) : Database :=
  if db.customer_calls.any (fun c => c.id == row.id) then db
  else if callsInsertCheck uid row && callStatusOk row.status
  then { db with customer_calls := db.customer_calls ++ [row] } else db

/-- One operation issued by this code slice against customer_calls: either a
customer's callVendor insert or a vendor's acknowledgeCall update. -/
inductive SliceOp where
  | callIns (uid : UserId) (vid : VendorId) (lat lng : ℚ) (newId : CallId) (now : Timestamp)
  | ack (uid : UserId) (callId : CallId) (now : Timestamp)

/-- Apply one slice operation to the database. -/
def applySliceOp (db : Database) : SliceOp → Database
  | .callIns uid vid lat lng newId now => insertCallDb db uid (callVendorRow uid vid lat lng newId now)
  | .ack uid callId now => ackCallDb db uid callId now

/-- Apply a sequence of slice operations, left to right. -/
def applySliceOps (db : Database) : List SliceOp → Database
  | [] => db
  | op :: rest => applySliceOps (applySliceOp db op) rest

/-- Well-formedness of the customer_calls table: every stored status passes the
CHECK constraint and no stored row has reached 'completed'. -/
def callsWf (db : Database) : Prop :=
  ∀ c ∈ db.customer_calls, callStatusOk c.status = true ∧ c.status ≠ "completed"

/-- Primary-key property of the customer_calls table: stored row ids are distinct. -/
def callsPk (db : Database) : Prop :=
  (db.customer_calls.map Call.id).Nodup

/-- Optional column assignments of an UPDATE payload on vendors, mirroring the
object literals the dashboard passes to supabase.from('vendors').update. -/
structure VendorUpdatePayload where
  is_active : Option Bool
  current_latitude : Option ℚ
  current_longitude : Option ℚ
  last_location_update : Option Timestamp
deriving DecidableEq

/-- Payload of toggleLocationTracking's activation branch:
is_active true together with both coordinates and the location timestamp. -/
def activatePayload (lat lng : ℚ) (now : Timestamp) : VendorUpdatePayload :=
  { is_active := some true, current_latitude := some lat,
    current_longitude := some lng, last_location_update := some now }

/-- Payload of toggleLocationTracking's deactivation branch: only is_active false. -/
def deactivatePayload : VendorUpdatePayload :=
  { is_active := some false, current_latitude := none,
    current_longitude := none, last_location_update := none }

/-- Payload of startLocationUpdates' watchPosition callback:
both coordinates and the location timestamp, is_active untouched. -/
def locationTickPayload (lat lng : ℚ) (now : Timestamp) : VendorUpdatePayload :=
  { is_active := none, current_latitude := some lat,
    current_longitude := some lng, last_location_update := some now }

/-- The vendor writes issued by this code slice: the three UPDATE payloads above
plus VendorSetupForm's INSERT. -/
inductive VendorWrite where
  | activate (lat lng : ℚ) (now : Timestamp)
  | deactivate
  | locationTick (lat lng : ℚ) (now : Timestamp)
  | setup (uid : UserId) (name ty desc : String)

/-- The UPDATE payload of a vendor write; none for the setup INSERT. -/
def vendorWritePayload : VendorWrite → Option VendorUpdatePayload
  | .activate lat lng now => some (activatePayload lat lng now)
  | .deactivate => some deactivatePayload
  | .locationTick lat lng now => some (locationTickPayload lat lng now)
  | .setup _ _ _ _ => none

/-- The stored row produced by VendorSetupForm's INSERT: only user_id,
business_name, business_type, description are supplied, so is_active takes its
schema default false and the location columns start NULL. -/
def setupInsertRow (newVid : VendorId) (uid : UserId) (name ty desc : String)
    (now : Timestamp) : Vendor :=
  { id := newVid, user_id := uid, business_name := name, business_type := ty,
    description := desc, is_active := false, current_latitude := none,
    current_longitude := none, last_location_update := none,
    created_at := now, updated_at := now }

/-- Apply an UPDATE payload to a stored vendor row; columns absent from the
payload keep their value, and the updated-at trigger stamps updated_at. -/
def applyVendorPayload (p : VendorUpdatePayload) (now : Timestamp) (v : Vendor) : Vendor :=
  { v with
    is_active := p.is_active.getD v.is_active,
    current_latitude := match p.current_latitude with
      | some x => some x
      | none => v.current_latitude,
    current_longitude := match p.current_longitude with
      | some x => some x
      | none => v.current_longitude,
    last_location_update := match p.last_location_update with
      | some t => some t
      | none => v.last_location_update,
    updated_at := now }

/-- The database effect of an UPDATE on vendors targeting one row id (the
dashboard's .eq('id', vendor.id)), guarded by the vendors update policy. -/
def updateVendorDb (db : Database) (uid : UserId) (vid : VendorId)
    (p : VendorUpdatePayload) (now : Timestamp) : Database :=
  { db with vendors := db.vendors.map (fun v =>
      if v.id == vid && vendorsUpdateUsing uid v
          && vendorsUpdateCheck uid (applyVendorPayload p now v)
      then applyVendorPayload p now v else v) }

/-- INSERT payload on subscriptions; amount, status and payment_date may be
omitted, in which case the schema defaults apply. -/
structure SubscriptionInsertPayload where
  vendor_id : VendorId
  start_date : CalDate
  end_date : CalDate
  amount : Option Int
  status : Option String
  payment_date : Option Timestamp
deriving DecidableEq

/-- The stored subscription row after applying the column defaults:
amount DEFAULT 5000, status DEFAULT 'pending', created_at DEFAULT now(). -/
def storedSubscription (p : SubscriptionInsertPayload) (newId : SubId)
    (now : Timestamp) : Subscription :=
  { id := newId, vendor_id := p.vendor_id, start_date := p.start_date,
    end_date := p.end_date, amount := p.amount.getD 5000,
    status := p.status.getD "pending", payment_date := p.payment_date,
    created_at := now }

/-- The database effect of an INSERT into subscriptions: rejected on primary-key
collision, when the CHECK constraint fails on the stored status, or when the
insert policy (vendor ownership) fails; otherwise the row is appended. -/
def insertSubscriptionDb (db : Database) (uid : UserId)
    (p : SubscriptionInsertPayload) (newId : SubId) (now : Timestamp) : Database :=
  let row := storedSubscription p newId now
  if db.subscriptions.any (fun s => s.id == newId) then db
  else if subscriptionStatusOk row.status && ownsVendor db uid row.vendor_id
  then { db with subscriptions := db.subscriptions ++ [row] } else db

/-- loadVendorData's subscription query filter:
.eq('vendor_id', vendorId).eq('status', 'active'). -/
def activeSubs (db : Database) (vid : VendorId) : List Subscription :=
  db.subscriptions.filter (fun s => s.vendor_id == vid && s.status == "active")

/-- Accumulator step for picking the row with the greatest end_date. -/
def pickLatest (acc : Option Subscription) (s : Subscription) : Option Subscription :=
  match acc with
  | none => some s
  | some t => if t.end_date < s.end_date then some s else some t

/-- loadVendorData's .order('end_date', descending).limit(1).maybeSingle():
pick a row with the greatest end_date among the filtered rows, none if empty. -/
def loadSubscription (db : Database) (vid : VendorId) : Option Subscription :=
  (activeSubs db vid).foldl pickLatest none

/-- isSubscriptionExpired = !subscription || subscription.status !== 'active'. -/
def isSubscriptionExpired (sub : Option Subscription) : Bool :=
  match sub with
  | none => true
  | some s => !(s.status == "active")

/-- The toggle button is withheld (disabled=\x7bisSubscriptionExpired\x7d) exactly
when isSubscriptionExpired holds on the loaded subscription. -/
def toggleWithheld (db : Database) (vid : VendorId) : Bool :=
  isSubscriptionExpired (loadSubscription db vid)

/-- A covering subscription per the spec: status active and end_date on or after
the current date. -/
def coveringExists (db : Database) (vid : VendorId) (today : CalDate) : Bool :=
  db.subscriptions.any (fun s =>
    s.vendor_id == vid && s.status == "active" && decide (today ≤ s.end_date))

/-- The client-side acknowledgeCall handler: it awaits the UPDATE and then
unconditionally runs setCalls(calls.filter(c => c.id !== callId)), without
inspecting the returned error. Result: the new database and the new local list. -/
def acknowledgeCallClient (db : Database) (uid : UserId) (localCalls : List Call)
    (callId : CallId) (now : Timestamp) : Database × List Call :=
  (ackCallDb db uid callId now, localCalls.filter (fun c => !(c.id == callId)))

/-- A concrete vendor row: vendor 1 owned by user 7. -/
def exVendorRow : Vendor :=
  { id := 1, user_id := 7, business_name := "Warung Bu Sari", business_type := "Makanan",
    description := "", is_active := false, current_latitude := none,
    current_longitude := none, last_location_update := none,
    created_at := 0, updated_at := 0 }

/-- A concrete vendor row with an active flag and a stored location. -/
def exVendorLoc : Vendor :=
  { id := 1, user_id := 7, business_name := "Warung Bu Sari", business_type := "Makanan",
    description := "", is_active := true, current_latitude := some 3,
    current_longitude := some 4, last_location_update := some 2,
    created_at := 0, updated_at := 0 }

/-- A concrete call in which the caller of the call also owns the target vendor. -/
def exCallSelf : Call :=
  { id := 10, customer_id := 7, vendor_id := 1, customer_latitude := 0,
    customer_longitude := 0, status := "pending", created_at := 0,
    acknowledged_at := none, completed_at := none }

/-- A concrete call from customer 2 to vendor 1 (owned by user 7). -/
def exCallOther : Call :=
  { id := 11, customer_id := 2, vendor_id := 1, customer_latitude := 0,
    customer_longitude := 0, status := "pending", created_at := 0,
    acknowledged_at := none, completed_at := none }

/-- A concrete call already acknowledged by the vendor. -/
def exCallAck : Call :=
  { id := 10, customer_id := 2, vendor_id := 1, customer_latitude := 0,
    customer_longitude := 0, status := "acknowledged", created_at := 0,
    acknowledged_at := some 5, completed_at := none }

/-- A concrete profile row. -/
def exProfile : Profile :=
  { id := 7, full_name := "Budi", phone := none, user_type := "customer",
    created_at := 0, updated_at := 0 }

/-- A subscription row with status 'active' whose end_date already passed. -/
def exSubStale : Subscription :=
  { id := 20, vendor_id := 1, start_date := 0, end_date := 5, amount := 5000,
    status := "active", payment_date := some 0, created_at := 0 }

/-- A subscription INSERT payload omitting amount, status and payment_date. -/
def exSubPayload : SubscriptionInsertPayload :=
  { vendor_id := 1, start_date := 0, end_date := 30, amount := none,
    status := none, payment_date := none }

/-- Database in which user 7 both owns vendor 1 and originated a call to it. -/
def exDbSelf : Database :=
  { profiles := [], vendors := [exVendorRow], subscriptions := [],
    customer_calls := [exCallSelf] }

/-- Database containing a pending call from customer 2 to vendor 1 (owner: user 7). -/
def exDbOther : Database :=
  { profiles := [], vendors := [exVendorRow], subscriptions := [],
    customer_calls := [exCallOther] }

/-- Database containing an acknowledged call to vendor 1 (owner: user 7). -/
def exDbAck : Database :=
  { profiles := [], vendors := [exVendorRow], subscriptions := [],
    customer_calls := [exCallAck] }

/-- Database containing a stale active-status subscription for vendor 1. -/
def exDbStale : Database :=
  { profiles := [], vendors := [exVendorRow], subscriptions := [exSubStale],
    customer_calls := [] }

/-- Database containing vendor 1 with a stored location. -/
def exDbLoc : Database :=
  { profiles := [], vendors := [exVendorLoc], subscriptions := [],
    customer_calls := [] }

/-- Math.atan2(y, x) over the reals (signed zero ignored). -/
noncomputable def atan2 (y x : ℝ) : ℝ :=
  if 0 < x then Real.arctan (y / x)
  else if x < 0 then
    (if 0 ≤ y then Real.arctan (y / x) + Real.pi else Real.arctan (y / x) - Real.pi)
  else
    (if 0 < y then Real.pi / 2 else if y < 0 then -(Real.pi / 2) else 0)

/-- The haversine intermediate a of calculateDistance:
sin(dLat/2)·sin(dLat/2) + cos(lat1·π/180)·cos(lat2·π/180)·sin(dLon/2)·sin(dLon/2). -/
noncomputable def haversineA (lat1 lon1 lat2 lon2 : ℝ) : ℝ :=
  let dLat := (lat2 - lat1) * Real.pi / 180
  let dLon := (lon2 - lon1) * Real.pi / 180
  Real.sin (dLat / 2) * Real.sin (dLat / 2) +
    Real.cos (lat1 * Real.pi / 180) * Real.cos (lat2 * Real.pi / 180) *
      (Real.sin (dLon / 2) * Real.sin (dLon / 2))

/-- CustomerDashboard's calculateDistance: haversine distance with R = 6371 km,
c = 2·atan2(√a, √(1−a)), returning R·c. -/
noncomputable def calculateDistance (lat1 lon1 lat2 lon2 : ℝ) : ℝ :=
  let R : ℝ := 6371
  let a := haversineA lat1 lon1 lat2 lon2
  let c := 2 * atan2 (Real.sqrt a) (Real.sqrt (1 - a))
  R * c

/-- Cartesian position of a coordinate pair on the sphere of radius 6371 km. -/
noncomputable def spherePoint (lat lon : ℝ) : ℝ × ℝ × ℝ :=
  let φ := lat * Real.pi / 180
  let lam := lon * Real.pi / 180
  (6371 * Real.cos φ * Real.cos lam, 6371 * Real.cos φ * Real.sin lam, 6371 * Real.sin φ)

/-- Squared Euclidean distance in space between the sphere positions of two
coordinate pairs. -/
noncomputable def chordSq (lat1 lon1 lat2 lon2 : ℝ) : ℝ :=
  let p := spherePoint lat1 lon1
  let q := spherePoint lat2 lon2
  (p.1 - q.1) ^ 2 + (p.2.1 - q.2.1) ^ 2 + (p.2.2 - q.2.2) ^ 2

/-- Straight-line (chord) separation of two coordinate pairs: the Euclidean
distance in space between their positions on the sphere of radius 6371 km. -/
noncomputable def straightLineSep (lat1 lon1 lat2 lon2 : ℝ) : ℝ :=
  Real.sqrt (chordSq lat1 lon1 lat2 lon2)

/-- The ownership subquery succeeds exactly when some stored vendor row has the
given id and is owned by the caller. -/
theorem ownsVendor_iff (db : Database) (uid : UserId) (vid : VendorId) :
    ownsVendor db uid vid = true ↔
      ∃ v, v ∈ db.vendors ∧ v.id = vid ∧ v.user_id = uid := by
  simp [ownsVendor, List.any_eq_true, Bool.and_eq_true, beq_iff_eq]

/-- A status-only call UPDATE is authorized exactly by vendor ownership: the
USING and WITH CHECK predicates both reduce to the ownership subquery. -/
theorem callStatusUpdateAllowed_eq (db : Database) (uid : UserId) (c : Call)
    (s : String) :
    callStatusUpdateAllowed db uid c s = ownsVendor db uid c.vendor_id := by
  simp [callStatusUpdateAllowed, callUpdateAllowed, callsUpdateUsing, callsUpdateCheck]

/-- C1: counterexample — in a database where user 7 owns vendor 1 and is also the
originating customer of call 10 to vendor 1, the originating customer IS allowed
to author a status transition, contradicting the claim's "can never". -/
theorem C1_counterexample :
    exCallSelf.customer_id = 7 ∧ exCallSelf ∈ exDbSelf.customer_calls ∧
      callStatusUpdateAllowed exDbSelf 7 exCallSelf "acknowledged" = true := by
  refine ⟨rfl, ?_, ?_⟩ <;> decide

/-- C1 (amended): a status update on a Call row is permitted if and only if the
acting identity owns the target vendor via the vendors table; consequently an
originating customer who does not own the target vendor can never author a
status transition. -/
theorem C1_theorem (db : Database) (uid : UserId) (c : Call) (s : String) :
    (callStatusUpdateAllowed db uid c s = true ↔
      ∃ v, v ∈ db.vendors ∧ v.id = c.vendor_id ∧ v.user_id = uid) ∧
    (c.customer_id = uid →
      (∀ v ∈ db.vendors, v.id = c.vendor_id → v.user_id ≠ uid) →
      callStatusUpdateAllowed db uid c s = false) := by
  constructor
  · rw [callStatusUpdateAllowed_eq]
    exact ownsVendor_iff db uid c.vendor_id
  · intro _ hno
    rw [callStatusUpdateAllowed_eq]
    rw [Bool.eq_false_iff]
    intro htrue
    obtain ⟨v, hv, hid, huid⟩ := (ownsVendor_iff db uid c.vendor_id).1 htrue
    exact hno v hv hid huid

/-- C1 witness: customer 2, who does not own vendor 1, cannot author a status
transition on their own call. -/
theorem C1_witness :
    callStatusUpdateAllowed exDbOther 2 exCallOther "acknowledged" = false :=
  (C1_theorem exDbOther 2 exCallOther "acknowledged").2 (by decide) (by decide)

/-- C2: any authenticated caller may read every profile row; a profile update is
authorized exactly on the caller's own row; an UPDATE statement aimed at any
other id changes zero rows. -/
theorem C2_theorem (db : Database) (uid : UserId) (p q : Profile)
    (targetId : UserId) (f : Profile → Profile) (now : Timestamp) :
    profilesSelectPolicy uid p = true ∧
    ((profilesUpdateUsing uid p && profilesUpdateCheck uid q) = true ↔
      (p.id = uid ∧ q.id = uid)) ∧
    (targetId ≠ uid → (updateProfilesDb db uid targetId f now).profiles = db.profiles) := by
  refine ⟨rfl, ?_, ?_⟩
  · simp only [profilesUpdateUsing, profilesUpdateCheck, Bool.and_eq_true, beq_iff_eq]
    exact ⟨fun h => ⟨h.1.symm, h.2.symm⟩, fun h => ⟨h.1.symm, h.2.symm⟩⟩
  · intro hne
    have hfun : ∀ x : Profile,
        (if x.id == targetId && profilesUpdateUsing uid x && profilesUpdateCheck uid (f x)
            && profileUserTypeOk (f x).user_type
         then { f x with updated_at := now } else x) = x := by
      intro x
      rw [if_neg]
      intro hcond
      simp only [Bool.and_eq_true, beq_iff_eq, profilesUpdateUsing] at hcond
      exact hne (hcond.1.1.2.trans hcond.1.1.1).symm
    show db.profiles.map _ = db.profiles
    rw [List.map_congr_left (fun a _ => hfun a)]
    simp

/-- C2 witness: with caller 7 and target id 3, the profiles table is unchanged,
and caller 7 may update their own row. -/
theorem C2_witness :
    (updateProfilesDb exDbSelf 7 3 (fun r => r) 0).profiles = exDbSelf.profiles :=
  (C2_theorem exDbSelf 7 exProfile exProfile 3 (fun r => r) 0).2.2 (by decide)

/-- C4: when the owning vendor acknowledges a call, the database after the
acknowledge UPDATE holds a row with that call's id whose status is acknowledged
and whose acknowledgement timestamp is the non-null update time, while the
created timestamp is unchanged. -/
theorem C4_theorem (db : Database) (uid : UserId) (c : Call) (now : Timestamp)
    (hc : c ∈ db.customer_calls) (hown : ownsVendor db uid c.vendor_id = true)
    (hpend : c.status = "pending") :
    ∃ c1 ∈ (ackCallDb db uid c.id now).customer_calls,
      c1.id = c.id ∧ c1.status = "acknowledged" ∧ c1.acknowledged_at = some now ∧
      c1.created_at = c.created_at := by
  refine ⟨ackTransform now c, ?_, rfl, rfl, rfl, rfl⟩
  have hmem := List.mem_map_of_mem (ackRow db uid c.id now) hc
  have hcond : (c.id == c.id && callUpdateAllowed db uid c (ackTransform now c)
      && callStatusOk (ackTransform now c).status) = true := by
    simp [callUpdateAllowed, callsUpdateUsing, callsUpdateCheck, ackTransform,
      callStatusOk, hown]
  rw [show ackRow db uid c.id now c = ackTransform now c from by
    rw [ackRow, if_pos hcond]] at hmem
  exact hmem

/-- C4 witness: vendor owner 7 acknowledges pending call 11 at time 5. -/
theorem C4_witness :
    ∃ c1 ∈ (ackCallDb exDbOther 7 exCallOther.id 5).customer_calls,
      c1.id = exCallOther.id ∧ c1.status = "acknowledged" ∧
      c1.acknowledged_at = some 5 ∧ c1.created_at = exCallOther.created_at :=
  C4_theorem exDbOther 7 exCallOther 5 (by decide) (by decide) rfl

/-- pickLatest never returns none. -/
theorem pickLatest_ne_none (acc : Option Subscription) (s : Subscription) :
    pickLatest acc s ≠ none := by
  rcases acc with _ | t
  · simp [pickLatest]
  · rw [pickLatest]
    split <;> simp

/-- pickLatest returns its second argument or the content of its accumulator. -/
theorem pickLatest_cases (acc : Option Subscription) (s : Subscription) :
    pickLatest acc s = some s ∨ pickLatest acc s = acc := by
  rcases acc with _ | t
  · exact Or.inl rfl
  · rw [pickLatest]
    split
    · exact Or.inl rfl
    · exact Or.inr rfl

/-- The foldl underlying loadSubscription yields none only from a none
accumulator on an empty list, and any some it yields is the accumulator or an
element of the list. -/
theorem loadSub_foldl_spec (l : List Subscription) :
    ∀ acc : Option Subscription,
      (l.foldl pickLatest acc = none → acc = none ∧ l = []) ∧
      (∀ s, l.foldl pickLatest acc = some s → acc = some s ∨ s ∈ l) := by
  induction l with
  | nil => intro acc; exact ⟨fun h => ⟨h, rfl⟩, fun s h => Or.inl h⟩
  | cons x xs ih =>
      intro acc
      constructor
      · intro h
        rw [List.foldl_cons] at h
        exact absurd ((ih (pickLatest acc x)).1 h).1 (pickLatest_ne_none acc x)
      · intro s h
        rw [List.foldl_cons] at h
        rcases (ih (pickLatest acc x)).2 s h with h1 | h1
        · rcases pickLatest_cases acc x with h2 | h2
          · rw [h1] at h2
            rw [Option.some_inj] at h2
            exact Or.inr (h2 ▸ List.mem_cons_self x xs)
          · exact Or.inl (h2 ▸ h1)
        · exact Or.inr (List.mem_cons_of_mem _ h1)

/-- C5: counterexample — vendor 1 has a single subscription with status active
but end_date 5 in the past (today = 10): no covering subscription exists, yet the
toggle is not withheld. -/
theorem C5_counterexample :
    toggleWithheld exDbStale 1 = false ∧ coveringExists exDbStale 1 10 = false := by
  decide

/-- C5 (amended): the toggle is withheld exactly when no subscription row with
status active exists for the vendor; the end_date is never consulted, so a
status-active subscription whose date range has passed still enables the toggle. -/
theorem C5_theorem (db : Database) (vid : VendorId) :
    toggleWithheld db vid = true ↔
      ∀ s ∈ db.subscriptions, ¬(s.vendor_id = vid ∧ s.status = "active") := by
  have hstatus : ∀ s, loadSubscription db vid = some s → s.status = "active" := by
    intro s hs
    rcases (loadSub_foldl_spec (activeSubs db vid) none).2 s hs with h | h
    · exact absurd h (by simp)
    · have := List.of_mem_filter h
      simp only [Bool.and_eq_true, beq_iff_eq] at this
      exact this.2
  constructor
  · intro h s hs hys
    rcases hload : loadSubscription db vid with _ | t
    · have hempty : activeSubs db vid = [] := ((loadSub_foldl_spec _ none).1 hload).2
      have : s ∈ activeSubs db vid := by
        apply List.mem_filter_of_mem hs
        simp [hys.1, hys.2]
      rw [hempty] at this
      exact absurd this (List.not_mem_nil s)
    · rw [toggleWithheld, hload] at h
      rw [isSubscriptionExpired] at h
      simp [hstatus t hload] at h
  · intro h
    rcases hload : loadSubscription db vid with _ | t
    · simp [toggleWithheld, hload, isSubscriptionExpired]
    · exfalso
      rcases (loadSub_foldl_spec (activeSubs db vid) none).2 t hload with h1 | h1
      · exact absurd h1 (by simp)
      · have hmem := List.mem_of_mem_filter h1
        have hpred := List.of_mem_filter h1
        simp only [Bool.and_eq_true, beq_iff_eq] at hpred
        exact h t hmem ⟨hpred.1, hpred.2⟩

/-- C6: every vendor write of this slice that sets is_active to true supplies
both coordinates and the location timestamp in the same payload, and the setup
INSERT stores is_active false. -/
theorem C6_theorem :
    (∀ (w : VendorWrite) (p : VendorUpdatePayload),
      vendorWritePayload w = some p → p.is_active = some true →
      p.current_latitude.isSome = true ∧ p.current_longitude.isSome = true ∧
        p.last_location_update.isSome = true) ∧
    (∀ (vid : VendorId) (uid : UserId) (name ty desc : String) (now : Timestamp),
      (setupInsertRow vid uid name ty desc now).is_active = false) := by
  constructor
  · intro w p hw hact
    cases w with
    | activate lat lng now =>
        rw [vendorWritePayload, Option.some_inj] at hw
        rw [← hw]
        exact ⟨rfl, rfl, rfl⟩
    | deactivate =>
        rw [vendorWritePayload, Option.some_inj] at hw
        rw [← hw] at hact
        exact absurd hact (by simp [deactivatePayload])
    | locationTick lat lng now =>
        rw [vendorWritePayload, Option.some_inj] at hw
        rw [← hw] at hact
        exact absurd hact (by simp [locationTickPayload])
    | setup uid name ty desc =>
        exact absurd hw (by simp [vendorWritePayload])
  · intro vid uid name ty desc now
    rfl

/-- C6 witness: the activation payload at coordinates (3, 4), time 2. -/
theorem C6_witness :
    (activatePayload 3 4 2).current_latitude.isSome = true ∧
      (activatePayload 3 4 2).current_longitude.isSome = true ∧
      (activatePayload 3 4 2).last_location_update.isSome = true :=
  C6_theorem.1 (VendorWrite.activate 3 4 2) (activatePayload 3 4 2) rfl rfl

/-- C7: inserting a subscription with amount omitted stores amount 5000; the
stored status defaults to pending and follows an explicit active; a status
outside the three-value enumeration is rejected by the CHECK constraint. -/
theorem C7_theorem (p : SubscriptionInsertPayload) (newId : SubId)
    (now : Timestamp) (db : Database) (uid : UserId) (s : String) :
    (p.amount = none → (storedSubscription p newId now).amount = 5000) ∧
    (p.status = none → (storedSubscription p newId now).status = "pending") ∧
    (p.status = some "active" → (storedSubscription p newId now).status = "active") ∧
    (p.status = some s → subscriptionStatusOk s = false →
      insertSubscriptionDb db uid p newId now = db) := by
  refine ⟨?_, ?_, ?_, ?_⟩
  · intro h
    simp [storedSubscription, h]
  · intro h
    simp [storedSubscription, h]
  · intro h
    simp [storedSubscription, h]
  · intro hs hbad
    rw [insertSubscriptionDb]
    have hstat : (storedSubscription p newId now).status = s := by
      simp [storedSubscription, hs]
    split
    · rfl
    · rw [if_neg]
      intro hcond
      rw [Bool.and_eq_true] at hcond
      rw [hstat, hbad] at hcond
      exact Bool.false_ne_true hcond.1

/-- C7 witness: the concrete payload with amount and status omitted stores
amount 5000 and status pending. -/
theorem C7_witness :
    (storedSubscription exSubPayload 21 0).amount = 5000 ∧
      (storedSubscription exSubPayload 21 0).status = "pending" :=
  ⟨(C7_theorem exSubPayload 21 0 exDbStale 7 "x").1 rfl,
   (C7_theorem exSubPayload 21 0 exDbStale 7 "x").2.1 rfl⟩

/-- C8: when the owning vendor deactivates, the stored row afterwards has
is_active false while both coordinates and the last-location timestamp keep
their previous values. -/
theorem C8_theorem (db : Database) (uid : UserId) (v : Vendor) (now : Timestamp)
    (hv : v ∈ db.vendors) (hown : v.user_id = uid) :
    ∃ v1 ∈ (updateVendorDb db uid v.id deactivatePayload now).vendors,
      v1.id = v.id ∧ v1.is_active = false ∧
      v1.current_latitude = v.current_latitude ∧
      v1.current_longitude = v.current_longitude ∧
      v1.last_location_update = v.last_location_update := by
  refine ⟨applyVendorPayload deactivatePayload now v, ?_, rfl, rfl, rfl, rfl, rfl⟩
  have hmem := List.mem_map_of_mem (fun x =>
    if x.id == v.id && vendorsUpdateUsing uid x
        && vendorsUpdateCheck uid (applyVendorPayload deactivatePayload now x)
    then applyVendorPayload deactivatePayload now x else x) hv
  have hcond : (v.id == v.id && vendorsUpdateUsing uid v
      && vendorsUpdateCheck uid (applyVendorPayload deactivatePayload now v)) = true := by
    simp [vendorsUpdateUsing, vendorsUpdateCheck, applyVendorPayload, hown]
  rw [show (fun x =>
      if x.id == v.id && vendorsUpdateUsing uid x
          && vendorsUpdateCheck uid (applyVendorPayload deactivatePayload now x)
      then applyVendorPayload deactivatePayload now x else x) v
      = applyVendorPayload deactivatePayload now v from if_pos hcond] at hmem
  exact hmem

/-- C8 witness: vendor owner 7 deactivates vendor 1, which holds location (3, 4)
at time 2; the stored coordinates survive. -/
theorem C8_witness :
    ∃ v1 ∈ (updateVendorDb exDbLoc 7 exVendorLoc.id deactivatePayload 9).vendors,
      v1.id = exVendorLoc.id ∧ v1.is_active = false ∧
      v1.current_latitude = exVendorLoc.current_latitude ∧
      v1.current_longitude = exVendorLoc.current_longitude ∧
      v1.last_location_update = exVendorLoc.last_location_update :=
  C8_theorem exDbLoc 7 exVendorLoc 9 (by decide) rfl

/-- C10: after acknowledgeCall returns, no call with the targeted id remains in
the local list, even when the caller does not own the vendor so the database
UPDATE was rejected and the stored row still has status pending. -/
theorem C10_theorem (db : Database) (uid : UserId) (localCalls : List Call)
    (now : Timestamp) (c : Call)
    (hc : c ∈ db.customer_calls) (hpend : c.status = "pending")
    (hnown : ownsVendor db uid c.vendor_id = false) :
    (∀ c1 ∈ (acknowledgeCallClient db uid localCalls c.id now).2, c1.id ≠ c.id) ∧
    c ∈ (acknowledgeCallClient db uid localCalls c.id now).1.customer_calls ∧
    c.status = "pending" := by
  refine ⟨?_, ?_, hpend⟩
  · intro c1 h1
    have := List.of_mem_filter h1
    simp only [Bool.not_eq_true', beq_eq_false_iff_ne, ne_eq] at this
    exact this
  · have hmem := List.mem_map_of_mem (ackRow db uid c.id now) hc
    have hallow : callUpdateAllowed db uid c (ackTransform now c) = false := by
      simp [callUpdateAllowed, callsUpdateUsing, callsUpdateCheck, ackTransform, hnown]
    rw [show ackRow db uid c.id now c = c from by simp [ackRow, hallow]] at hmem
    exact hmem

/-- C10 witness: customer 2 (not the vendor owner) invokes acknowledgeCall on
their pending call 11; the local list drops it while the stored row is intact. -/
theorem C10_witness :
    (∀ c1 ∈ (acknowledgeCallClient exDbOther 2 [exCallOther] exCallOther.id 5).2,
      c1.id ≠ exCallOther.id) ∧
    exCallOther ∈ (acknowledgeCallClient exDbOther 2 [exCallOther] exCallOther.id 5).1.customer_calls ∧
    exCallOther.status = "pending" :=
  C10_theorem exDbOther 2 [exCallOther] 5 exCallOther (by decide) rfl (by decide)

/-- C3: counterexample — the owning vendor (user 7) issues a permitted UPDATE
setting the acknowledged call 10 back to pending: the policies and the CHECK
constraint accept it, and the observed status sequence reverts. -/
theorem C3_counterexample :
    exDbAck.customer_calls.map (fun c => statusRank c.status) = [1] ∧
    (updateCallStatusDb exDbAck 7 10 "pending").customer_calls.map
      (fun c => statusRank c.status) = [0] ∧
    callStatusUpdateAllowed exDbAck 7 exCallAck "pending" = true := by
  refine ⟨?_, ?_, ?_⟩ <;> decide

/-- A CHECK-valid status other than completed has rank at most 1. -/
theorem statusRank_le_one {s : String} (hok : callStatusOk s = true)
    (hnc : s ≠ "completed") : statusRank s ≤ 1 := by
  rw [callStatusOk] at hok
  simp only [Bool.or_eq_true, beq_iff_eq] at hok
  rcases hok with (h | h) | h
  · simp [statusRank, h]
  · simp [statusRank, h]
  · exact absurd h hnc

/-- ackRow keeps the row id. -/
theorem ackRow_id (db : Database) (uid : UserId) (callId : CallId)
    (now : Timestamp) (c : Call) : (ackRow db uid callId now c).id = c.id := by
  rw [ackRow]
  split
  · rfl
  · rfl

/-- ackRow returns the acknowledged version of the row or the row unchanged. -/
theorem ackRow_cases (db : Database) (uid : UserId) (callId : CallId)
    (now : Timestamp) (c : Call) :
    ackRow db uid callId now c = ackTransform now c ∨ ackRow db uid callId now c = c := by
  rw [ackRow]
  split
  · exact Or.inl rfl
  · exact Or.inr rfl

/-- Each slice operation preserves the CHECK/not-completed well-formedness of
the customer_calls table. -/
theorem applySliceOp_wf {db : Database} (op : SliceOp) (hwf : callsWf db) :
    callsWf (applySliceOp db op) := by
  cases op with
  | callIns uid vid lat lng newId now =>
      intro c hc
      simp only [applySliceOp] at hc
      rw [insertCallDb] at hc
      split at hc
      · exact hwf c hc
      · split at hc
        · rcases List.mem_append.1 hc with h | h
          · exact hwf c h
          · rw [List.mem_singleton] at h
            subst h
            refine ⟨?_, ?_⟩ <;>
              rw [show (callVendorRow uid vid lat lng newId now).status = "pending"
                from rfl] <;> decide
        · exact hwf c hc
  | ack uid callId now =>
      intro c hc
      simp only [applySliceOp] at hc
      rcases List.mem_map.1 hc with ⟨d, hd, heq⟩
      rcases ackRow_cases db uid callId now d with h | h <;> rw [h] at heq <;> subst heq
      · refine ⟨?_, ?_⟩ <;>
          rw [show (ackTransform now d).status = "acknowledged" from rfl] <;> decide
      · exact hwf d hd

/-- Each slice operation preserves distinctness of the stored call ids. -/
theorem applySliceOp_pk {db : Database} (op : SliceOp) (hpk : callsPk db) :
    callsPk (applySliceOp db op) := by
  cases op with
  | callIns uid vid lat lng newId now =>
      show ((insertCallDb db uid (callVendorRow uid vid lat lng newId now)).customer_calls.map
        Call.id).Nodup
      rw [insertCallDb]
      split
      · exact hpk
      · split
        · next hcoll _ =>
            rw [List.map_append]
            rw [show (([callVendorRow uid vid lat lng newId now]).map Call.id) = [newId] from rfl]
            rw [← List.concat_eq_append]
            refine List.Nodup.concat ?_ hpk
            intro hmem
            apply hcoll
            rcases List.mem_map.1 hmem with ⟨d, hd, hdid⟩
            refine List.any_eq_true.2 ⟨d, hd, ?_⟩
            rw [show (callVendorRow uid vid lat lng newId now).id = newId from rfl]
            simp [hdid]
        · exact hpk
  | ack uid callId now =>
      show ((ackCallDb db uid callId now).customer_calls.map Call.id).Nodup
      show ((db.customer_calls.map (ackRow db uid callId now)).map Call.id).Nodup
      rw [List.map_map]
      have hmapeq : List.map (Call.id ∘ ackRow db uid callId now) db.customer_calls
          = List.map Call.id db.customer_calls :=
        List.map_congr_left (fun a _ => ackRow_id db uid callId now a)
      rw [hmapeq]
      exact hpk

/-- Each slice operation keeps every stored row (by id) and never lowers its
status rank, given a well-formed table. -/
theorem applySliceOp_mono {db : Database} (op : SliceOp) (hwf : callsWf db) :
    ∀ c ∈ db.customer_calls, ∃ c1 ∈ (applySliceOp db op).customer_calls,
      c1.id = c.id ∧ statusRank c.status ≤ statusRank c1.status := by
  cases op with
  | callIns uid vid lat lng newId now =>
      intro c hc
      refine ⟨c, ?_, rfl, le_refl _⟩
      simp only [applySliceOp]
      rw [insertCallDb]
      split
      · exact hc
      · split
        · exact List.mem_append.2 (Or.inl hc)
        · exact hc
  | ack uid callId now =>
      intro c hc
      refine ⟨ackRow db uid callId now c, ?_, ackRow_id db uid callId now c, ?_⟩
      · exact List.mem_map_of_mem (ackRow db uid callId now) hc
      · rcases ackRow_cases db uid callId now c with h | h
        · rw [h]
          have hrank := statusRank_le_one (hwf c hc).1 (hwf c hc).2
          have hone : statusRank (ackTransform now c).status = 1 := by
            rw [show (ackTransform now c).status = "acknowledged" from rfl]
            decide
          rw [hone]
          exact hrank
        · rw [h]

/-- C3 (amended): the schema CHECK only constrains status membership, and the
owning vendor is permitted to write any of the three values, including
reversals; restricted to the operations this slice issues (customer inserts
with status pending, vendor acknowledgements), starting from a table whose
rows have CHECK-valid, not-completed statuses and distinct ids, the status rank
of every surviving row never decreases over any operation sequence. -/
theorem C3_theorem (ops : List SliceOp) (db : Database)
    (hwf : callsWf db) (hpk : callsPk db) :
    ∀ c ∈ db.customer_calls, ∀ c2 ∈ (applySliceOps db ops).customer_calls,
      c2.id = c.id → statusRank c.status ≤ statusRank c2.status := by
  induction ops generalizing db with
  | nil =>
      intro c hc c2 hc2 hid
      have heq : c2 = c := List.inj_on_of_nodup_map hpk hc2 hc hid
      rw [heq]
  | cons op rest ih =>
      intro c hc c2 hc2 hid
      obtain ⟨c1, hc1, hid1, hrank1⟩ := applySliceOp_mono op hwf c hc
      have h2 := ih (applySliceOp db op) (applySliceOp_wf op hwf)
        (applySliceOp_pk op hpk) c1 hc1 c2 hc2 (hid.trans hid1.symm)
      exact le_trans hrank1 h2

/-- C3 witness: acknowledging the pending call 11 moves its rank from 0 to 1,
never backwards. -/
theorem C3_witness :
    statusRank exCallOther.status ≤ statusRank (ackTransform 5 exCallOther).status :=
  C3_theorem [SliceOp.ack 7 11 5] exDbOther
    (by show ∀ c ∈ exDbOther.customer_calls,
          callStatusOk c.status = true ∧ c.status ≠ "completed"
        decide)
    (by show (exDbOther.customer_calls.map Call.id).Nodup
        decide)
    exCallOther (by decide) (ackTransform 5 exCallOther) (by decide) (by decide)

/-- Product form of the half-angle identity used by the haversine formula. -/
theorem sin_half_mul_self (u : ℝ) :
    Real.sin (u / 2) * Real.sin (u / 2) = (1 - Real.cos u) / 2 := by
  have h := Real.sin_sq_eq_half_sub (u / 2)
  rw [show 2 * (u / 2) = u by ring] at h
  rw [← pow_two, h]
  ring

/-- The squared chord between the sphere positions equals 4R² times the
haversine intermediate a, for all inputs. -/
theorem chordSq_eq (lat1 lon1 lat2 lon2 : ℝ) :
    chordSq lat1 lon1 lat2 lon2 = 4 * 6371 ^ 2 * haversineA lat1 lon1 lat2 lon2 := by
  simp only [chordSq, spherePoint, haversineA]
  rw [show (lat2 - lat1) * Real.pi / 180 = lat2 * Real.pi / 180 - lat1 * Real.pi / 180
        by ring,
      show (lon2 - lon1) * Real.pi / 180 = lon2 * Real.pi / 180 - lon1 * Real.pi / 180
        by ring]
  rw [sin_half_mul_self, sin_half_mul_self, Real.cos_sub, Real.cos_sub]
  have p1 := Real.sin_sq_add_cos_sq (lat1 * Real.pi / 180)
  have p2 := Real.sin_sq_add_cos_sq (lat2 * Real.pi / 180)
  have q1 := Real.sin_sq_add_cos_sq (lon1 * Real.pi / 180)
  have q2 := Real.sin_sq_add_cos_sq (lon2 * Real.pi / 180)
  linear_combination (6371:ℝ) ^ 2 * (Real.cos (lat1 * Real.pi / 180)) ^ 2 * q1
    + (6371:ℝ) ^ 2 * (Real.cos (lat2 * Real.pi / 180)) ^ 2 * q2
    + (6371:ℝ) ^ 2 * p1 + (6371:ℝ) ^ 2 * p2

/-- The squared chord is non-negative. -/
theorem chordSq_nonneg (lat1 lon1 lat2 lon2 : ℝ) :
    0 ≤ chordSq lat1 lon1 lat2 lon2 := by
  simp only [chordSq, spherePoint]
  positivity

/-- The haversine intermediate a is non-negative for all inputs. -/
theorem haversineA_nonneg (lat1 lon1 lat2 lon2 : ℝ) :
    0 ≤ haversineA lat1 lon1 lat2 lon2 := by
  linarith [chordSq_nonneg lat1 lon1 lat2 lon2, chordSq_eq lat1 lon1 lat2 lon2]

/-- The haversine intermediate a is at most 1 for all inputs. -/
theorem haversineA_le_one (lat1 lon1 lat2 lon2 : ℝ) :
    haversineA lat1 lon1 lat2 lon2 ≤ 1 := by
  simp only [haversineA]
  rw [show (lat2 - lat1) * Real.pi / 180 = lat2 * Real.pi / 180 - lat1 * Real.pi / 180
        by ring,
      show (lon2 - lon1) * Real.pi / 180 = lon2 * Real.pi / 180 - lon1 * Real.pi / 180
        by ring]
  rw [sin_half_mul_self, sin_half_mul_self, Real.cos_sub, Real.cos_sub]
  set s1 := Real.sin (lat1 * Real.pi / 180) with hs1
  set c1 := Real.cos (lat1 * Real.pi / 180) with hc1
  set s2 := Real.sin (lat2 * Real.pi / 180) with hs2
  set c2 := Real.cos (lat2 * Real.pi / 180) with hc2
  set sl1 := Real.sin (lon1 * Real.pi / 180) with hsl1
  set cl1 := Real.cos (lon1 * Real.pi / 180) with hcl1
  set sl2 := Real.sin (lon2 * Real.pi / 180) with hsl2
  set cl2 := Real.cos (lon2 * Real.pi / 180) with hcl2
  have p1 : s1 ^ 2 + c1 ^ 2 = 1 := Real.sin_sq_add_cos_sq (lat1 * Real.pi / 180)
  have p2 : s2 ^ 2 + c2 ^ 2 = 1 := Real.sin_sq_add_cos_sq (lat2 * Real.pi / 180)
  have q1 : sl1 ^ 2 + cl1 ^ 2 = 1 := Real.sin_sq_add_cos_sq (lon1 * Real.pi / 180)
  have q2 : sl2 ^ 2 + cl2 ^ 2 = 1 := Real.sin_sq_add_cos_sq (lon2 * Real.pi / 180)
  have hprod : c1 ^ 2 * ((sl1 ^ 2 + cl1 ^ 2) * (sl2 ^ 2 + cl2 ^ 2)) = c1 ^ 2 := by
    rw [q1, q2]
    ring
  nlinarith [p1, p2, hprod,
    sq_nonneg (s1 + s2),
    sq_nonneg (c1 * (cl2 * cl1 + sl2 * sl1) + c2),
    sq_nonneg (c1 * (cl2 * sl1 - cl1 * sl2))]

/-- On [0, 1], the atan2 expression of calculateDistance is the arcsine of √a. -/
theorem atan2_sqrt_eq_arcsin {a : ℝ} (h0 : 0 ≤ a) (h1 : a ≤ 1) :
    atan2 (Real.sqrt a) (Real.sqrt (1 - a)) = Real.arcsin (Real.sqrt a) := by
  rcases lt_or_eq_of_le h1 with hlt | heq
  · have hx : 0 < Real.sqrt (1 - a) := Real.sqrt_pos.2 (by linarith)
    rw [atan2, if_pos hx]
    have hmem : Real.sqrt a ∈ Set.Ioo (-(1:ℝ)) 1 := by
      constructor
      · linarith [Real.sqrt_nonneg a]
      · exact (Real.sqrt_lt' one_pos).2 (by nlinarith)
    rw [Real.arcsin_eq_arctan hmem]
    rw [Real.sq_sqrt h0]
  · subst heq
    rw [show (1:ℝ) - 1 = 0 by ring, Real.sqrt_zero, Real.sqrt_one, Real.arcsin_one]
    rw [atan2]
    norm_num

/-- calculateDistance is the arcsine form of the haversine distance. -/
theorem calculateDistance_eq (lat1 lon1 lat2 lon2 : ℝ) :
    calculateDistance lat1 lon1 lat2 lon2
      = 2 * 6371 * Real.arcsin (Real.sqrt (haversineA lat1 lon1 lat2 lon2)) := by
  simp only [calculateDistance]
  rw [atan2_sqrt_eq_arcsin (haversineA_nonneg lat1 lon1 lat2 lon2)
    (haversineA_le_one lat1 lon1 lat2 lon2)]
  ring

/-- The straight-line separation is 2R times the square root of the haversine
intermediate a. -/
theorem straightLineSep_eq (lat1 lon1 lat2 lon2 : ℝ) :
    straightLineSep lat1 lon1 lat2 lon2
      = 2 * 6371 * Real.sqrt (haversineA lat1 lon1 lat2 lon2) := by
  rw [straightLineSep, chordSq_eq]
  rw [show 4 * (6371:ℝ) ^ 2 * haversineA lat1 lon1 lat2 lon2
      = (2 * 6371) ^ 2 * haversineA lat1 lon1 lat2 lon2 by ring]
  rw [Real.sqrt_mul (by positivity) _]
  rw [Real.sqrt_sq (by norm_num)]

/-- The haversine intermediate a is symmetric in its two coordinate pairs. -/
theorem haversineA_comm (lat1 lon1 lat2 lon2 : ℝ) :
    haversineA lat1 lon1 lat2 lon2 = haversineA lat2 lon2 lat1 lon1 := by
  simp only [haversineA]
  rw [show (lat1 - lat2) * Real.pi / 180 = -((lat2 - lat1) * Real.pi / 180) by ring,
      show (lon1 - lon2) * Real.pi / 180 = -((lon2 - lon1) * Real.pi / 180) by ring,
      neg_div, neg_div, Real.sin_neg, Real.sin_neg]
  ring

/-- The haversine intermediate a vanishes on identical coordinate pairs. -/
theorem haversineA_self (lat lon : ℝ) : haversineA lat lon lat lon = 0 := by
  simp only [haversineA]
  rw [show (lat - lat) * Real.pi / 180 = 0 by ring,
      show (lon - lon) * Real.pi / 180 = 0 by ring]
  norm_num

/-- C9: calculateDistance is symmetric in its two coordinate pairs, vanishes on
identical pairs, and is monotonically non-decreasing in the straight-line
separation of the corresponding sphere positions. -/
theorem C9_theorem :
    (∀ lat1 lon1 lat2 lon2 : ℝ,
      calculateDistance lat1 lon1 lat2 lon2 = calculateDistance lat2 lon2 lat1 lon1) ∧
    (∀ lat lon : ℝ, calculateDistance lat lon lat lon = 0) ∧
    (∀ lat1 lon1 lat2 lon2 lat3 lon3 lat4 lon4 : ℝ,
      straightLineSep lat1 lon1 lat2 lon2 ≤ straightLineSep lat3 lon3 lat4 lon4 →
      calculateDistance lat1 lon1 lat2 lon2 ≤ calculateDistance lat3 lon3 lat4 lon4) := by
  refine ⟨?_, ?_, ?_⟩
  · intro lat1 lon1 lat2 lon2
    simp only [calculateDistance]
    rw [haversineA_comm]
  · intro lat lon
    simp only [calculateDistance]
    rw [haversineA_self]
    rw [Real.sqrt_zero, show (1:ℝ) - 0 = 1 by ring, Real.sqrt_one]
    rw [atan2, if_pos (by norm_num : (0:ℝ) < 1)]
    rw [show (0:ℝ) / 1 = 0 by ring, Real.arctan_zero]
    ring
  · intro lat1 lon1 lat2 lon2 lat3 lon3 lat4 lon4 hsep
    rw [straightLineSep_eq, straightLineSep_eq] at hsep
    have hs : Real.sqrt (haversineA lat1 lon1 lat2 lon2)
        ≤ Real.sqrt (haversineA lat3 lon3 lat4 lon4) := by linarith
    rw [calculateDistance_eq, calculateDistance_eq]
    have harc := Real.monotone_arcsin hs
    linarith

/-- C9 witness: the monotonicity part applied at equal separations. -/
theorem C9_witness : calculateDistance 0 0 0 0 ≤ calculateDistance 0 0 0 0 :=
  C9_theorem.2.2 0 0 0 0 0 0 0 0 le_rfl

end UMKM
